import Mathlib

/-!
Verification of the connectivity-discovery prober in `src/index.js`
(repository `them3ntalist/acs-voice-bot`).

The relevant JavaScript is shallowly embedded below:
* `httpToWss`, `stripTrailingSlashes` — the URL helpers (lines 40-41);
* `encodeURIComponent` — the JS builtin used when building candidate URLs;
* `buildCandidates` — candidate generation (lines 93-108);
* `tryWebSocketOnce` — single WebSocket attempt with the first-writer-wins
  `done` flag and the 8000 ms safety timeout (lines 44-73), modelled as a
  fold of completion events over an attempt state;
* `tryWithRedirect` — single-hop redirect following (lines 76-90);
* the `/test-realtime` handler loop (lines 128-203), modelled as `runProbe`
  and `testRealtime` over an oracle assigning to each URL its timed events,
  plus a constructor oracle for the synchronous `new WebSocket` throw on an
  unparseable URL, which escapes to the catch-all at lines 199-202.
-/

/-- Strip all trailing `'/'` characters, as the regex `replace(/\/+$/, "")`
in `src/index.js` line 41 does (char-list form). -/
def stripL : List Char → List Char
  | [] => []
  | c :: cs =>
    match stripL cs with
    | [] => if c == '/' then [] else [c]
    | r => c :: r

/-- `stripTrailingSlashes` from `src/index.js` line 41. -/
def stripTrailingSlashes (u : String) : String := ⟨stripL u.data⟩

/-- Case-insensitive prefix test, modelling an anchored `/^pat/i` regex test:
`startsWithCI pat s` is true when lowercasing the head of `s` gives `pat`. -/
def startsWithCI : List Char → List Char → Bool
  | [], _ => true
  | _ :: _, [] => false
  | p :: ps, c :: cs => (c.toLower == p) && startsWithCI ps cs

/-- The pattern `http:` of the regex `/^http:/i`. -/
def httpPat : List Char := ['h', 't', 't', 'p', ':']

/-- The pattern `https:` of the regex `/^https:/i`. -/
def httpsPat : List Char := ['h', 't', 't', 'p', 's', ':']

/-- `httpToWss` from `src/index.js` line 40 on char lists:
`u.replace(/^http:/i, "ws:").replace(/^https:/i, "wss:")` — the first
replacement runs first, the second runs on its output. -/
def httpToWssL (u : List Char) : List Char :=
  let u1 := if startsWithCI httpPat u then 'w' :: 's' :: ':' :: u.drop 5 else u
  if startsWithCI httpsPat u1 then 'w' :: 's' :: 's' :: ':' :: u1.drop 6 else u1

/-- `httpToWss` from `src/index.js` line 40. -/
def httpToWss (u : String) : String := ⟨httpToWssL u.data⟩

/-- The base URL computed at `src/index.js` line 94:
`httpToWss(stripTrailingSlashes(endpoint))`. -/
def probeBase (endpoint : String) : String := httpToWss (stripTrailingSlashes endpoint)

-- ### helper lemmas about the string helpers

theorem stripL_cons (c : Char) (l : List Char) (hc : (c == '/') = false) :
    stripL (c :: l) = c :: stripL l := by
  cases h : stripL l with
  | nil => simp [stripL, h, hc]
  | cons a as => simp [stripL, h]

theorem stripL_http (l : List Char) :
    stripL ('h' :: 't' :: 't' :: 'p' :: ':' :: l) =
      'h' :: 't' :: 't' :: 'p' :: ':' :: stripL l := by
  rw [stripL_cons 'h' _ (by decide), stripL_cons 't' _ (by decide),
    stripL_cons 't' _ (by decide), stripL_cons 'p' _ (by decide),
    stripL_cons ':' _ (by decide)]

theorem stripL_https (l : List Char) :
    stripL ('h' :: 't' :: 't' :: 'p' :: 's' :: ':' :: l) =
      'h' :: 't' :: 't' :: 'p' :: 's' :: ':' :: stripL l := by
  rw [stripL_cons 'h' _ (by decide), stripL_cons 't' _ (by decide),
    stripL_cons 't' _ (by decide), stripL_cons 'p' _ (by decide),
    stripL_cons 's' _ (by decide), stripL_cons ':' _ (by decide)]

theorem sw_httpPat_w (l : List Char) : startsWithCI httpPat ('w' :: l) = false := by
  have h : ('w'.toLower == 'h') = false := by decide
  simp [startsWithCI, httpPat, h]

theorem sw_httpsPat_w (l : List Char) : startsWithCI httpsPat ('w' :: l) = false := by
  have h : ('w'.toLower == 'h') = false := by decide
  simp [startsWithCI, httpsPat, h]

theorem sw_http_self (l : List Char) :
    startsWithCI httpPat ('h' :: 't' :: 't' :: 'p' :: ':' :: l) = true := by
  have hh : ('h'.toLower == 'h') = true := by decide
  have ht : ('t'.toLower == 't') = true := by decide
  have hp : ('p'.toLower == 'p') = true := by decide
  have hc : (':'.toLower == ':') = true := by decide
  simp [startsWithCI, httpPat, hh, ht, hp, hc]

theorem sw_https_self (l : List Char) :
    startsWithCI httpsPat ('h' :: 't' :: 't' :: 'p' :: 's' :: ':' :: l) = true := by
  have hh : ('h'.toLower == 'h') = true := by decide
  have ht : ('t'.toLower == 't') = true := by decide
  have hp : ('p'.toLower == 'p') = true := by decide
  have hs : ('s'.toLower == 's') = true := by decide
  have hc : (':'.toLower == ':') = true := by decide
  simp [startsWithCI, httpsPat, hh, ht, hp, hs, hc]

theorem sw_http_on_https (l : List Char) :
    startsWithCI httpPat ('h' :: 't' :: 't' :: 'p' :: 's' :: ':' :: l) = false := by
  have hh : ('h'.toLower == 'h') = true := by decide
  have ht : ('t'.toLower == 't') = true := by decide
  have hp : ('p'.toLower == 'p') = true := by decide
  have hs : ('s'.toLower == ':') = false := by decide
  simp [startsWithCI, httpPat, hh, ht, hp, hs]

theorem httpToWssL_http (l : List Char) :
    httpToWssL ('h' :: 't' :: 't' :: 'p' :: ':' :: l) = 'w' :: 's' :: ':' :: l := by
  simp [httpToWssL, sw_http_self, sw_httpsPat_w]

theorem httpToWssL_https (l : List Char) :
    httpToWssL ('h' :: 't' :: 't' :: 'p' :: 's' :: ':' :: l) =
      'w' :: 's' :: 's' :: ':' :: l := by
  simp [httpToWssL, sw_http_on_https, sw_https_self]

theorem httpToWssL_w (l : List Char) : httpToWssL ('w' :: l) = 'w' :: l := by
  simp [httpToWssL, sw_httpPat_w, sw_httpsPat_w]

theorem httpToWssL_none (l : List Char) (h1 : startsWithCI httpPat l = false)
    (h2 : startsWithCI httpsPat l = false) : httpToWssL l = l := by
  simp [httpToWssL, h1, h2]

theorem httpToWssL_idem (l : List Char) : httpToWssL (httpToWssL l) = httpToWssL l := by
  cases h1 : startsWithCI httpPat l with
  | true =>
    have he : httpToWssL l = 'w' :: 's' :: ':' :: l.drop 5 := by
      simp [httpToWssL, h1, sw_httpsPat_w]
    rw [he, httpToWssL_w]
  | false =>
    cases h2 : startsWithCI httpsPat l with
    | true =>
      have he : httpToWssL l = 'w' :: 's' :: 's' :: ':' :: l.drop 6 := by
        simp [httpToWssL, h1, h2]
      rw [he, httpToWssL_w]
    | false =>
      rw [httpToWssL_none l h1 h2, httpToWssL_none l h1 h2]

theorem string_eq_of_data (a b : String) (h : a.data = b.data) : a = b := by
  cases a; cases b; exact congrArg String.mk h

theorem string_data_append (a b : String) : (a ++ b).data = a.data ++ b.data := by
  cases a; cases b; rfl

-- ### Claim C10

/-- Claim C10 (amended): `httpToWss` is idempotent, and any string that does
not begin — case-insensitively, since the source regexes carry the `i` flag —
with `http:` or `https:` is returned unchanged; in particular a string already
beginning with `ws:` or `wss:` is returned unchanged. -/
theorem claim_c10 (u t : String) :
    httpToWss (httpToWss u) = httpToWss u ∧
    (startsWithCI httpPat u.data = false → startsWithCI httpsPat u.data = false →
      httpToWss u = u) ∧
    httpToWss ("ws:" ++ t) = "ws:" ++ t ∧
    httpToWss ("wss:" ++ t) = "wss:" ++ t := by
  refine ⟨?_, ?_, ?_, ?_⟩
  · exact string_eq_of_data _ _ (httpToWssL_idem u.data)
  · intro h1 h2
    exact string_eq_of_data _ _ (httpToWssL_none u.data h1 h2)
  · refine string_eq_of_data _ _ ?_
    rw [httpToWss, string_data_append]
    exact httpToWssL_w _
  · refine string_eq_of_data _ _ ?_
    rw [httpToWss, string_data_append]
    exact httpToWssL_w _

/-- Claim C10, counterexample to the claim as stated: `"HTTP://a"` begins with
none of `http:`, `https:`, `ws:`, `wss:` (as literal, case-sensitive prefixes),
yet `httpToWss` rewrites it to `"ws://a"` because the source regexes are
case-insensitive. -/
theorem counterexample_c10 :
    ("http:".data.isPrefixOf "HTTP://a".data) = false ∧
    ("https:".data.isPrefixOf "HTTP://a".data) = false ∧
    ("ws:".data.isPrefixOf "HTTP://a".data) = false ∧
    ("wss:".data.isPrefixOf "HTTP://a".data) = false ∧
    httpToWss "HTTP://a" = "ws://a" ∧
    httpToWss "HTTP://a" ≠ "HTTP://a" := by
  refine ⟨by decide, by decide, by decide, by decide, by decide, by decide⟩

/-- Claim C10, witness instantiating the amended theorem at a concrete input:
`"ftp://x"` begins with neither scheme pattern and survives unchanged, and both
secure-streaming prefixes are fixed points. -/
theorem claim_c10_witness :
    httpToWss (httpToWss "ftp://x") = httpToWss "ftp://x" ∧
    (startsWithCI httpPat "ftp://x".data = false →
      startsWithCI httpsPat "ftp://x".data = false → httpToWss "ftp://x" = "ftp://x") ∧
    httpToWss ("ws:" ++ "//h") = "ws:" ++ "//h" ∧
    httpToWss ("wss:" ++ "//h") = "wss:" ++ "//h" :=
  claim_c10 "ftp://x" "//h"

-- ### Claim C8

/-- Claim C8 (confirmed): the base used by candidate generation is obtained by
first stripping all trailing slashes and then rewriting the scheme
(`http`→`ws`, `https`→`wss`), with everything after the scheme preserved
unchanged: `probeBase` is exactly
`httpToWss(stripTrailingSlashes(endpoint))` from `src/index.js` line 94. -/
theorem claim_c8 (t : String) :
    probeBase ("http:" ++ t) = "ws:" ++ stripTrailingSlashes t ∧
    probeBase ("https:" ++ t) = "wss:" ++ stripTrailingSlashes t ∧
    probeBase t = httpToWss (stripTrailingSlashes t) := by
  refine ⟨?_, ?_, rfl⟩
  · refine string_eq_of_data _ _ ?_
    rw [probeBase, httpToWss, stripTrailingSlashes, string_data_append,
      string_data_append]
    show httpToWssL (stripL ('h' :: 't' :: 't' :: 'p' :: ':' :: t.data)) =
      'w' :: 's' :: ':' :: stripL t.data
    rw [stripL_http, httpToWssL_http]
  · refine string_eq_of_data _ _ ?_
    rw [probeBase, httpToWss, stripTrailingSlashes, string_data_append,
      string_data_append]
    show httpToWssL (stripL ('h' :: 't' :: 't' :: 'p' :: 's' :: ':' :: t.data)) =
      'w' :: 's' :: 's' :: ':' :: stripL t.data
    rw [stripL_https, httpToWssL_https]

-- ### Candidate generation (src/index.js lines 93-108)

/-- The characters `encodeURIComponent` leaves unescaped:
`A-Z a-z 0-9 - _ . ! ~ * ' ( )`. -/
def isUnreservedURI (c : Char) : Bool :=
  ('A' ≤ c && c ≤ 'Z') || ('a' ≤ c && c ≤ 'z') || ('0' ≤ c && c ≤ '9') ||
  c == '-' || c == '_' || c == '.' || c == '!' || c == '~' || c == '*' ||
  c == Char.ofNat 39 || c == '(' || c == ')'

/-- UTF-8 byte sequence of a code point, for percent-encoding. -/
def utf8Bytes (n : Nat) : List Nat :=
  if n < 0x80 then [n]
  else if n < 0x800 then [0xC0 + n / 64, 0x80 + n % 64]
  else if n < 0x10000 then [0xE0 + n / 4096, 0x80 + (n / 64) % 64, 0x80 + n % 64]
  else [0xF0 + n / 262144, 0x80 + (n / 4096) % 64, 0x80 + (n / 64) % 64, 0x80 + n % 64]

/-- Uppercase hexadecimal digit, as produced by `encodeURIComponent`. -/
def hexDigitUpper (n : Nat) : Char :=
  if n < 10 then Char.ofNat (48 + n) else Char.ofNat (55 + n)

/-- Percent-encode one byte as `%XY`. -/
def pctEncodeByte (b : Nat) : List Char :=
  ['%', hexDigitUpper (b / 16), hexDigitUpper (b % 16)]

/-- The JS builtin `encodeURIComponent`, used at `src/index.js` lines 100-102. -/
def encodeURIComponent (s : String) : String :=
  ⟨s.data.flatMap fun c =>
    if isUnreservedURI c then [c] else (utf8Bytes c.toNat).flatMap pctEncodeByte⟩

/-- One candidate URL, the template literal at `src/index.js` lines 100-102:
`BASE/openai/PATH?api-version=ENC(v)&PARAM=ENC(deployment)`. -/
def mkCandidate (base v p pn deployment : String) : String :=
  base ++ "/openai/" ++ p ++ "?api-version=" ++ encodeURIComponent v ++ "&" ++
    pn ++ "=" ++ encodeURIComponent deployment

/-- `buildCandidates` from `src/index.js` lines 93-108: three nested loops
(version outermost, then path, then parameter name) pushing one URL each. -/
def buildCandidates (endpoint : String) (versions paths paramNames : List String)
    (deployment : String) : List String :=
  versions.flatMap fun v =>
    paths.flatMap fun p =>
      paramNames.map fun pn => mkCandidate (probeBase endpoint) v p pn deployment

/-- Modelled from the spec: §4.1 describes a fourth enumeration dimension
(`subprotocolSets`) absent from `buildCandidates` in `src/index.js`; a spec
candidate is a URL paired with its protocol token set. -/
def specCandidatePairs (endpoint : String) (versions paths paramNames : List String)
    (subprotocolSets : List (List String)) (deployment : String) :
    List (String × List String) :=
  versions.flatMap fun v =>
    paths.flatMap fun p =>
      paramNames.flatMap fun pn =>
        subprotocolSets.map fun s =>
          (mkCandidate (probeBase endpoint) v p pn deployment, s)

/-- Modelled from the spec: §4.1 deduplication, suppressing later candidates
equal (URL and protocol token set) to an earlier one, keeping the first. -/
def specDedup (seen : List (String × List String)) :
    List (String × List String) → List (String × List String)
  | [] => []
  | a :: l => if a ∈ seen then specDedup seen l else a :: specDedup (a :: seen) l

/-- Modelled from the spec: the §8 candidate count
`|versions| × |paths| × |paramNames| × |subprotocolSets|` minus duplicates
removed by URL + protocol-set equality. -/
def specCandidateCount (endpoint : String) (versions paths paramNames : List String)
    (subprotocolSets : List (List String)) (deployment : String) : Nat :=
  (specDedup [] (specCandidatePairs endpoint versions paths paramNames
    subprotocolSets deployment)).length

theorem length_flatMap_map {α β γ : Type} (P : List α) (N : List β) (f : α → β → γ) :
    (P.flatMap fun p => N.map fun n => f p n).length = P.length * N.length := by
  induction P with
  | nil => simp
  | cons p Ps ih =>
    simp only [List.flatMap_cons, List.length_append, List.length_map, ih,
      List.length_cons]
    rw [Nat.succ_mul, Nat.add_comm]

-- ### Claim C5

/-- Claim C5 (amended): the number of candidates produced is exactly
`|versions| × |paths| × |paramNames|`; `buildCandidates` has no subprotocol-set
dimension and performs no deduplication. -/
theorem claim_c5 (endpoint deployment : String)
    (versions paths paramNames : List String) :
    (buildCandidates endpoint versions paths paramNames deployment).length =
      versions.length * paths.length * paramNames.length := by
  unfold buildCandidates
  induction versions with
  | nil => simp
  | cons v Vs ih =>
    simp only [List.flatMap_cons, List.length_append, ih, List.length_cons]
    rw [length_flatMap_map]
    ring

/-- Claim C5, counterexample to the claim as stated: with the duplicate
parameter-name list `["d", "d"]` the spec count (duplicates suppressed) is 1,
but `buildCandidates` emits 2 identical URLs — duplicates are kept. -/
theorem counterexample_c5 :
    (buildCandidates "http://h" ["v"] ["p"] ["d", "d"] "dep").length = 2 ∧
    specCandidateCount "http://h" ["v"] ["p"] ["d", "d"] [[]] "dep" = 1 ∧
    (buildCandidates "http://h" ["v"] ["p"] ["d", "d"] "dep").get? 0 =
      (buildCandidates "http://h" ["v"] ["p"] ["d", "d"] "dep").get? 1 := by
  refine ⟨by decide, by decide, by decide⟩

-- ### Claim C6

theorem getD_of_getElemOpt (l : List String) (k : Nat) (h : k < l.length) :
    l[k]? = some (l.getD k "") := by
  induction l generalizing k with
  | nil => simp at h
  | cons a l2 ih =>
    cases k with
    | zero => simp [List.getD_cons_zero]
    | succ k2 =>
      rw [List.getElem?_cons_succ, List.getD_cons_succ]
      exact ih k2 (by simpa using h)

theorem getElem?_flatMap_map (base dep v : String) (P N : List String)
    (j k : Nat) (hj : j < P.length) (hk : k < N.length) :
    (P.flatMap fun p => N.map fun pn => mkCandidate base v p pn dep)[j * N.length + k]? =
      some (mkCandidate base v (P.getD j "") (N.getD k "") dep) := by
  induction P generalizing j with
  | nil => simp at hj
  | cons p Ps ih =>
    cases j with
    | zero =>
      rw [List.flatMap_cons, Nat.zero_mul, Nat.zero_add,
        List.getElem?_append_left (by simpa using hk), List.getElem?_map,
        getD_of_getElemOpt N k hk]
      rfl
    | succ j2 =>
      have harith : (j2 + 1) * N.length + k = N.length + (j2 * N.length + k) := by ring
      rw [List.flatMap_cons, harith,
        List.getElem?_append_right (by simp), List.length_map,
        Nat.add_sub_cancel_left]
      exact ih j2 (by simpa using hj)

/-- Claim C6 (amended): candidates are enumerated in nested-cross-product
order with version varying slowest, then path, then parameter name; there is
no subprotocol-set dimension. The candidate at position
`(i·|paths| + j)·|paramNames| + k` is built from `versions[i]`, `paths[j]`,
`paramNames[k]`. -/
theorem claim_c6 (endpoint deployment : String)
    (versions paths paramNames : List String) (i j k : Nat)
    (hi : i < versions.length) (hj : j < paths.length) (hk : k < paramNames.length) :
    (buildCandidates endpoint versions paths paramNames deployment)[
        (i * paths.length + j) * paramNames.length + k]? =
      some (mkCandidate (probeBase endpoint) (versions.getD i "") (paths.getD j "")
        (paramNames.getD k "") deployment) := by
  unfold buildCandidates
  induction versions generalizing i with
  | nil => simp at hi
  | cons v Vs ih =>
    cases i with
    | zero =>
      rw [List.flatMap_cons, Nat.zero_mul, Nat.zero_add,
        List.getElem?_append_left]
      · exact getElem?_flatMap_map (probeBase endpoint) deployment v paths
          paramNames j k hj hk
      · rw [length_flatMap_map]
        calc j * paramNames.length + k
            < j * paramNames.length + paramNames.length := by omega
          _ = (j + 1) * paramNames.length := by ring
          _ ≤ paths.length * paramNames.length := Nat.mul_le_mul_right _ hj
    | succ i2 =>
      have harith : ((i2 + 1) * paths.length + j) * paramNames.length + k =
          paths.length * paramNames.length +
            ((i2 * paths.length + j) * paramNames.length + k) := by ring
      rw [List.flatMap_cons, harith,
        List.getElem?_append_right
          (by rw [length_flatMap_map]; exact Nat.le_add_right _ _),
        length_flatMap_map, Nat.add_sub_cancel_left]
      exact ih i2 (by simpa using hi)

/-- Claim C6, counterexample to the claim as stated: the claim enumerates a
subprotocol-set dimension; with two subprotocol sets the spec enumeration has
two tuples, but `buildCandidates` produces a single candidate — there is no
position for the second tuple. -/
theorem counterexample_c6 :
    specCandidateCount "http://h" ["v"] ["p"] ["d"] [["a"], ["b"]] "dep" = 2 ∧
    (buildCandidates "http://h" ["v"] ["p"] ["d"] "dep").length = 1 ∧
    (buildCandidates "http://h" ["v"] ["p"] ["d"] "dep")[1]? = none := by
  refine ⟨by decide, by decide, by decide⟩

/-- Claim C6, witness: the amended positional theorem applied at concrete
lists, position `(1·1 + 0)·2 + 1` holding the candidate built from the second
version, first path and second parameter name. -/
theorem claim_c6_witness :
    (buildCandidates "http://h" ["a", "b"] ["c"] ["x", "y"] "dep")[(1 * 1 + 0) * 2 + 1]? =
      some (mkCandidate (probeBase "http://h") (["a", "b"].getD 1 "")
        (["c"].getD 0 "") (["x", "y"].getD 1 "") "dep") :=
  claim_c6 "http://h" "dep" ["a", "b"] ["c"] ["x", "y"] 1 0 1 (by decide) (by decide)
    (by decide)

-- ### Attempt lifecycle (src/index.js lines 44-73)

/-- The completion events that can fire against one WebSocket attempt:
`open`, `unexpected-response` (carrying the optional status code and optional
`Location` header), `error`, and the safety-timeout timer. -/
inductive WsEvent where
  | opened
  | unexpectedResponse (status : Option Nat) (location : Option String)
  | errored (msg : String)
  | timedOut
deriving DecidableEq

/-- The object `tryWebSocketOnce` resolves with (`src/index.js` lines 59-71):
`{ ok, url, status?, location?, error?, note? }`. -/
structure WsResult where
  ok : Bool
  url : String
  status : Option Nat := none
  location : Option String := none
  error : Option String := none
  note : Option String := none
deriving DecidableEq

/-- The mutable state of one attempt: the `done` first-writer-wins flag, the
value the promise resolved with (if any), and whether `ws.close()` has been
called. -/
structure AttemptState where
  done : Bool
  resolvedWith : Option WsResult
  closed : Bool
deriving DecidableEq

/-- Attempt state before any event fires. -/
def initState : AttemptState := ⟨false, none, false⟩

/-- `finish` from `src/index.js` lines 52-57: if `done` is already set the
call is ignored; otherwise it sets `done`, closes the socket and resolves. -/
def finish (st : AttemptState) (r : WsResult) : AttemptState :=
  if st.done then st else { done := true, resolvedWith := some r, closed := true }

/-- The result each handler passes to `finish` (`src/index.js` lines 59-71). -/
def eventResult (url : String) : WsEvent → WsResult
  | .opened => { ok := true, url := url, note := some "OPEN" }
  | .unexpectedResponse sc loc =>
      { ok := false, url := url, status := sc, location := loc, note := some "UNEXPECTED" }
  | .errored m => { ok := false, url := url, error := some m }
  | .timedOut => { ok := false, url := url, error := some "timeout" }

/-- Run a sequence of completion events against one attempt. -/
def runEvents (url : String) (evs : List WsEvent) : AttemptState :=
  evs.foldl (fun st ev => finish st (eventResult url ev)) initState

/-- The per-attempt safety timeout of `src/index.js` line 71, in ms. -/
def perAttemptTimeoutMs : Nat := 8000

/-- Interleave the timer of `setTimeout(..., 8000)` with the externally fired
events (chronologically listed, each tagged with its wall-clock time): events
strictly before the timeout fire first, then the timer, then the rest. -/
def timedEvents (timeoutMs : Nat) (evs : List (Nat × WsEvent)) : List WsEvent :=
  (evs.filter fun te => decide (te.1 < timeoutMs)).map Prod.snd ++
    WsEvent.timedOut :: (evs.filter fun te => !decide (te.1 < timeoutMs)).map Prod.snd

/-- Final state of `tryWebSocketOnce url` given the timed external events. -/
def attemptState (url : String) (evs : List (Nat × WsEvent)) : AttemptState :=
  runEvents url (timedEvents perAttemptTimeoutMs evs)

/-- `tryWebSocketOnce` from `src/index.js` lines 44-73: the value the promise
resolves with. (The timer event is always present, so the attempt always
resolves; the default is unreachable.) -/
def tryWebSocketOnce (url : String) (evs : List (Nat × WsEvent)) : WsResult :=
  (attemptState url evs).resolvedWith.getD { ok := false, url := url }

theorem finish_of_done (st : AttemptState) (r : WsResult) (h : st.done = true) :
    finish st r = st := by
  simp [finish, h]

theorem foldl_finish_of_done (url : String) (st : AttemptState) (h : st.done = true)
    (evs : List WsEvent) :
    evs.foldl (fun s e => finish s (eventResult url e)) st = st := by
  induction evs with
  | nil => rfl
  | cons e evs ih => simp [List.foldl_cons, finish_of_done st _ h, ih]

theorem runEvents_cons (url : String) (e : WsEvent) (rest : List WsEvent) :
    runEvents url (e :: rest) = ⟨true, some (eventResult url e), true⟩ := by
  have h0 : finish initState (eventResult url e) =
      ⟨true, some (eventResult url e), true⟩ := by
    simp [finish, initState]
  rw [runEvents, List.foldl_cons, h0]
  exact foldl_finish_of_done url _ rfl rest

-- ### Claim C2

/-- Claim C2 (confirmed): for any sequence of completion events fired in any
order against a single attempt, only the first event determines the recorded
result — the attempt resolves exactly with that event's result, the `done`
flag is set, and every later event is ignored (the state after the whole
sequence equals the state after the first event alone). -/
theorem claim_c2 (url : String) (e : WsEvent) (rest : List WsEvent) :
    (runEvents url (e :: rest)).resolvedWith = some (eventResult url e) ∧
    (runEvents url (e :: rest)).done = true ∧
    runEvents url (e :: rest) = runEvents url [e] := by
  rw [runEvents_cons, runEvents_cons]
  exact ⟨rfl, rfl, rfl⟩

-- ### Redirect following and the probe loop (src/index.js lines 76-90, 128-203)

/-- One entry the `/test-realtime` loop pushes onto `trace`: either a plain
result, or — after a followed redirect — the second result together with the
`chain: [first, second]` pair (`src/index.js` lines 84-87). -/
structure ProbeResult where
  res : WsResult
  chain : Option (WsResult × WsResult) := none
deriving DecidableEq

/-- The redirect-follow guard of `src/index.js` line 80:
`(first.status === 301 || first.status === 302) && first.location` — the
`Location` value is truthy exactly when present and non-empty. -/
def redirectCond (r : WsResult) : Bool :=
  (r.status == some 301 || r.status == some 302) && (r.location.getD "" != "")

/-- The followed URL of `src/index.js` line 82: `httpToWss(first.location)`. -/
def followUrl (r : WsResult) : String := httpToWss (r.location.getD "")

/-- An oracle assigns to every URL the chronological list of timed completion
events its WebSocket attempt would observe. -/
def WsOracle : Type := String → List (Nat × WsEvent)

/-- `tryWithRedirect` from `src/index.js` lines 76-90: follow a single
301/302 redirect, attempting the target once via `tryWebSocketOnce`. -/
def tryWithRedirect (oracle : WsOracle) (url : String) : ProbeResult :=
  if (tryWebSocketOnce url (oracle url)).ok then
    ⟨tryWebSocketOnce url (oracle url), none⟩
  else if redirectCond (tryWebSocketOnce url (oracle url)) then
    ⟨tryWebSocketOnce (followUrl (tryWebSocketOnce url (oracle url)))
        (oracle (followUrl (tryWebSocketOnce url (oracle url)))),
      some (tryWebSocketOnce url (oracle url),
        tryWebSocketOnce (followUrl (tryWebSocketOnce url (oracle url)))
          (oracle (followUrl (tryWebSocketOnce url (oracle url)))))⟩
  else ⟨tryWebSocketOnce url (oracle url), none⟩

/-- The individual attempt results recorded inside one trace entry: the
linked `[first, second]` pair when a redirect was followed, else the single
result. -/
def traceEntries (r : ProbeResult) : List WsResult :=
  match r.chain with
  | some (a, b) => [a, b]
  | none => [r.res]

/-- The URLs `tryWithRedirect` actually attempts for one candidate. -/
def attemptedUrls (oracle : WsOracle) (url : String) : List String :=
  if (tryWebSocketOnce url (oracle url)).ok then [url]
  else if redirectCond (tryWebSocketOnce url (oracle url)) then
    [url, followUrl (tryWebSocketOnce url (oracle url))]
  else [url]

/-- The `for (const url of candidates)` loop of `src/index.js` lines 152-180:
attempt candidates in order, pushing each result, and stop at the first
`ok` result. Returns the trace. -/
def runProbe (oracle : WsOracle) : List String → List ProbeResult
  | [] => []
  | url :: rest =>
    if (tryWithRedirect oracle url).res.ok then [tryWithRedirect oracle url]
    else tryWithRedirect oracle url :: runProbe oracle rest

/-- The winner as the loop determines it: the loop returns success exactly
when the entry it just pushed (the last one) is `ok`. -/
def probeWinner (tr : List ProbeResult) : Option ProbeResult :=
  match tr.getLast? with
  | some r => if r.res.ok then some r else none
  | none => none

/-- Modelled library boundary: whether `new WebSocket(url, ...)` itself
throws synchronously — the `ws` client raises without firing any event when
the URL cannot be parsed or carries an unsupported scheme. `some msg` means
the constructor throws with message `msg`; `none` means construction succeeds
and the attempt resolves through its completion events. -/
def CtorOracle : Type := String → Option String

/-- `tryWithRedirect` including the synchronous constructor-throw path: a
throw inside the promise executor (`src/index.js` lines 45-48) rejects the
promise and propagates through `await` in `tryWithRedirect` (lines 77, 83);
the follow-up attempt's constructor can throw as well. -/
def tryWithRedirectE (ctor : CtorOracle) (oracle : WsOracle) (url : String) :
    Except String ProbeResult :=
  match ctor url with
  | some msg => .error msg
  | none =>
    if (tryWebSocketOnce url (oracle url)).ok then
      .ok ⟨tryWebSocketOnce url (oracle url), none⟩
    else if redirectCond (tryWebSocketOnce url (oracle url)) then
      match ctor (followUrl (tryWebSocketOnce url (oracle url))) with
      | some msg => .error msg
      | none =>
        .ok ⟨tryWebSocketOnce (followUrl (tryWebSocketOnce url (oracle url)))
              (oracle (followUrl (tryWebSocketOnce url (oracle url)))),
          some (tryWebSocketOnce url (oracle url),
            tryWebSocketOnce (followUrl (tryWebSocketOnce url (oracle url)))
              (oracle (followUrl (tryWebSocketOnce url (oracle url)))))⟩
    else .ok ⟨tryWebSocketOnce url (oracle url), none⟩

/-- The `for` loop of `src/index.js` lines 152-180 with exception
propagation: a synchronous throw aborts the loop and escapes to the handler's
`catch` (lines 199-202), discarding the trace collected so far. -/
def runProbeE (ctor : CtorOracle) (oracle : WsOracle) :
    List String → Except String (List ProbeResult)
  | [] => .ok []
  | url :: rest =>
    match tryWithRedirectE ctor oracle url with
    | .error msg => .error msg
    | .ok r =>
      if r.res.ok then .ok [r]
      else
        match runProbeE ctor oracle rest with
        | .error msg => .error msg
        | .ok tr => .ok (r :: tr)

/-- The URLs on which a socket constructor is invoked for one candidate
(attempt initiations), including a URL whose constructor throws. -/
def attemptedUrlsE (ctor : CtorOracle) (oracle : WsOracle) (url : String) :
    List String :=
  match ctor url with
  | some _ => [url]
  | none =>
    if (tryWebSocketOnce url (oracle url)).ok then [url]
    else if redirectCond (tryWebSocketOnce url (oracle url)) then
      [url, followUrl (tryWebSocketOnce url (oracle url))]
    else [url]

/-- All attempt initiations of a probe run, in order; a synchronous throw
stops the loop, so no later candidate is ever reached. -/
def runAttemptedE (ctor : CtorOracle) (oracle : WsOracle) :
    List String → List String
  | [] => []
  | url :: rest =>
    match tryWithRedirectE ctor oracle url with
    | .error _ => attemptedUrlsE ctor oracle url
    | .ok r =>
      if r.res.ok then attemptedUrlsE ctor oracle url
      else attemptedUrlsE ctor oracle url ++ runAttemptedE ctor oracle rest

/-- The responses the `/test-realtime` handler can produce: the configuration
500 (`src/index.js` lines 130-136), the catch-all 500 rendering a thrown
error (lines 199-202), the success 200 with trace and winner (lines 155-179),
or the exhaustion 502 with the full trace (lines 183-198). -/
inductive Response where
  | configError
  | internalError (msg : String)
  | success (trace : List ProbeResult) (winner : ProbeResult)
  | failure (trace : List ProbeResult)
deriving DecidableEq

/-- The `/test-realtime` handler (`src/index.js` lines 128-203): reject empty
endpoint / API key / deployment before building candidates, probe the
candidates built from `[apiVersion, "2025-08-28"] × ["realtime",
"realtime/audio"] × ["deployment", "deploymentId"]`, and turn an escaped
synchronous throw into the catch-all 500. -/
def testRealtime (endpoint apiKey deployment apiVersion : String)
    (ctor : CtorOracle) (oracle : WsOracle) : Response :=
  if endpoint == "" || apiKey == "" || deployment == "" then .configError
  else
    match runProbeE ctor oracle (buildCandidates endpoint
      [apiVersion, "2025-08-28"] ["realtime", "realtime/audio"]
      ["deployment", "deploymentId"] deployment) with
    | .error msg => .internalError msg
    | .ok tr =>
      match probeWinner tr with
      | some w => .success tr w
      | none => .failure tr

/-- The attempt initiations the `/test-realtime` handler performs. -/
def testRealtimeAttempted (endpoint apiKey deployment apiVersion : String)
    (ctor : CtorOracle) (oracle : WsOracle) : List String :=
  if endpoint == "" || apiKey == "" || deployment == "" then []
  else runAttemptedE ctor oracle (buildCandidates endpoint
    [apiVersion, "2025-08-28"] ["realtime", "realtime/audio"]
    ["deployment", "deploymentId"] deployment)

-- ### Claim C1

theorem probeWinner_cons_cons (x y : ProbeResult) (l : List ProbeResult) :
    probeWinner (x :: y :: l) = probeWinner (y :: l) := by
  simp [probeWinner, List.getLast?_cons_cons]

/-- Claim C1 (confirmed): in the sequential run, the trace is exactly the
attempts over an initial segment of the candidates (so every candidate past
the trace is left unattempted), every entry before the last is not
`Connected` (so iteration stopped at the first `Connected` candidate), the
winner the loop reports is precisely the first `Connected` entry of the
trace, and the trace never exceeds the candidate list. -/
theorem claim_c1 (oracle : WsOracle) (cands : List String) :
    runProbe oracle cands =
      (cands.take (runProbe oracle cands).length).map
        (fun u => tryWithRedirect oracle u) ∧
    ((runProbe oracle cands).dropLast.all fun r => !r.res.ok) = true ∧
    probeWinner (runProbe oracle cands) =
      (runProbe oracle cands).find? (fun r => r.res.ok) ∧
    (runProbe oracle cands).length ≤ cands.length := by
  induction cands with
  | nil => exact ⟨rfl, rfl, rfl, Nat.le_refl 0⟩
  | cons url rest ih =>
    obtain ⟨ih1, ih2, ih3, ih4⟩ := ih
    by_cases hok : (tryWithRedirect oracle url).res.ok = true
    · have he : runProbe oracle (url :: rest) = [tryWithRedirect oracle url] := by
        simp [runProbe, hok]
      refine ⟨?_, ?_, ?_, ?_⟩
      · rw [he]
        simp
      · rw [he]
        rfl
      · rw [he]
        simp [probeWinner, List.find?, hok]
      · rw [he]
        simp
    · rw [Bool.not_eq_true] at hok
      have he : runProbe oracle (url :: rest) =
          tryWithRedirect oracle url :: runProbe oracle rest := by
        simp [runProbe, hok]
      refine ⟨?_, ?_, ?_, ?_⟩
      · rw [he, List.length_cons, List.take_succ_cons, List.map_cons]
        exact congrArg (List.cons (tryWithRedirect oracle url)) ih1
      · rw [he]
        cases htr : runProbe oracle rest with
        | nil => rfl
        | cons a l =>
          have h2 := ih2
          rw [htr] at h2
          simp only [List.dropLast_cons₂, List.all_cons, h2, hok]
          rfl
      · rw [he]
        cases htr : runProbe oracle rest with
        | nil => simp [probeWinner, List.find?, hok]
        | cons a l =>
          have h3 := ih3
          rw [htr] at h3
          rw [probeWinner_cons_cons,
            List.find?_cons_of_neg _ (by simp [hok]), h3]
      · rw [he, List.length_cons, List.length_cons]
        exact Nat.succ_le_succ ih4

-- ### Claim C3

/-- Claim C3 (confirmed): either no follow-up is synthesized and the single
attempt is the result, or the first attempt was not connected, its status was
301 or 302, a non-empty `Location` was present, the follow-up was attempted
exactly once via `tryWebSocketOnce` on the scheme-rewritten location — hence
its own response is never redirect-followed, whatever the oracle answers for
the target — and exactly the two URLs were attempted. -/
theorem claim_c3 (oracle : WsOracle) (url : String) :
    (tryWithRedirect oracle url = ⟨tryWebSocketOnce url (oracle url), none⟩ ∧
      attemptedUrls oracle url = [url]) ∨
    (∃ loc : String,
      (tryWebSocketOnce url (oracle url)).ok = false ∧
      ((tryWebSocketOnce url (oracle url)).status = some 301 ∨
        (tryWebSocketOnce url (oracle url)).status = some 302) ∧
      (tryWebSocketOnce url (oracle url)).location = some loc ∧ loc ≠ "" ∧
      tryWithRedirect oracle url =
        ⟨tryWebSocketOnce (httpToWss loc) (oracle (httpToWss loc)),
          some (tryWebSocketOnce url (oracle url),
            tryWebSocketOnce (httpToWss loc) (oracle (httpToWss loc)))⟩ ∧
      attemptedUrls oracle url = [url, httpToWss loc]) := by
  by_cases hok : (tryWebSocketOnce url (oracle url)).ok = true
  · left
    exact ⟨by simp [tryWithRedirect, hok], by simp [attemptedUrls, hok]⟩
  · rw [Bool.not_eq_true] at hok
    by_cases hrc : redirectCond (tryWebSocketOnce url (oracle url)) = true
    · right
      have hcond := hrc
      rw [redirectCond, Bool.and_eq_true] at hcond
      obtain ⟨hst, hloc⟩ := hcond
      cases hl : (tryWebSocketOnce url (oracle url)).location with
      | none =>
        rw [hl] at hloc
        simp at hloc
      | some loc =>
        rw [hl] at hloc
        refine ⟨loc, hok, ?_, rfl, ?_, ?_, ?_⟩
        · rw [Bool.or_eq_true] at hst
          cases hst with
          | inl h => exact Or.inl (eq_of_beq h)
          | inr h => exact Or.inr (eq_of_beq h)
        · simpa using hloc
        · simp [tryWithRedirect, hok, hrc, followUrl, hl]
        · simp [attemptedUrls, hok, hrc, followUrl, hl]
    · rw [Bool.not_eq_true] at hrc
      left
      exact ⟨by simp [tryWithRedirect, hok, hrc], by simp [attemptedUrls, hok, hrc]⟩

/-- A concrete oracle: the attempt on `ws://a` answers HTTP 302 with
`Location: https://t`, and every other URL — in particular the followed
target — also answers a 302 redirect. -/
def oracleRedirect : WsOracle := fun u =>
  if u == "ws://a" then [(0, WsEvent.unexpectedResponse (some 302) (some "https://t"))]
  else [(0, WsEvent.unexpectedResponse (some 302) (some "https://t2"))]

/-- Claim C3, witness: the theorem applied to a concrete oracle whose
redirect target itself answers another redirect. -/
theorem claim_c3_witness :
    (tryWithRedirect oracleRedirect "ws://a" =
        ⟨tryWebSocketOnce "ws://a" (oracleRedirect "ws://a"), none⟩ ∧
      attemptedUrls oracleRedirect "ws://a" = ["ws://a"]) ∨
    (∃ loc : String,
      (tryWebSocketOnce "ws://a" (oracleRedirect "ws://a")).ok = false ∧
      ((tryWebSocketOnce "ws://a" (oracleRedirect "ws://a")).status = some 301 ∨
        (tryWebSocketOnce "ws://a" (oracleRedirect "ws://a")).status = some 302) ∧
      (tryWebSocketOnce "ws://a" (oracleRedirect "ws://a")).location = some loc ∧
      loc ≠ "" ∧
      tryWithRedirect oracleRedirect "ws://a" =
        ⟨tryWebSocketOnce (httpToWss loc) (oracleRedirect (httpToWss loc)),
          some (tryWebSocketOnce "ws://a" (oracleRedirect "ws://a"),
            tryWebSocketOnce (httpToWss loc) (oracleRedirect (httpToWss loc)))⟩ ∧
      attemptedUrls oracleRedirect "ws://a" = ["ws://a", httpToWss loc]) :=
  claim_c3 oracleRedirect "ws://a"

-- ### Claim C9

/-- Claim C9 (confirmed): when a candidate's attempt answers HTTP 302 with a
non-empty `Location`, the trace entry for that candidate carries exactly the
two linked attempt results — the original 302 rejection and the one-hop
follow-up on the scheme-rewritten location — the follow-up being a plain
single attempt, so no third attempt is produced even if the followed target
itself answers another redirect (no hypothesis constrains its response). -/
theorem claim_c9 (oracle : WsOracle) (url loc : String)
    (h1 : (tryWebSocketOnce url (oracle url)).ok = false)
    (h2 : (tryWebSocketOnce url (oracle url)).status = some 302)
    (h3 : (tryWebSocketOnce url (oracle url)).location = some loc)
    (h4 : loc ≠ "") :
    traceEntries (tryWithRedirect oracle url) =
      [tryWebSocketOnce url (oracle url),
        tryWebSocketOnce (httpToWss loc) (oracle (httpToWss loc))] ∧
    runProbe oracle [url] =
      [⟨tryWebSocketOnce (httpToWss loc) (oracle (httpToWss loc)),
        some (tryWebSocketOnce url (oracle url),
          tryWebSocketOnce (httpToWss loc) (oracle (httpToWss loc)))⟩] ∧
    attemptedUrls oracle url = [url, httpToWss loc] ∧
    (attemptedUrls oracle url).length = 2 := by
  have hrc : redirectCond (tryWebSocketOnce url (oracle url)) = true := by
    rw [redirectCond, h2, h3]
    simp [h4]
  have het : tryWithRedirect oracle url =
      ⟨tryWebSocketOnce (httpToWss loc) (oracle (httpToWss loc)),
        some (tryWebSocketOnce url (oracle url),
          tryWebSocketOnce (httpToWss loc) (oracle (httpToWss loc)))⟩ := by
    simp [tryWithRedirect, h1, hrc, followUrl, h3]
  refine ⟨by simp [traceEntries, het], ?_,
    by simp [attemptedUrls, h1, hrc, followUrl, h3],
    by simp [attemptedUrls, h1, hrc, followUrl, h3]⟩
  simp [runProbe, het]

/-- Claim C9, witness: the theorem applied at a concrete oracle where the
original attempt answers 302 to `https://t` and the followed target
`wss://t` answers yet another 302 — still only two linked entries. -/
theorem claim_c9_witness :
    traceEntries (tryWithRedirect oracleRedirect "ws://a") =
      [tryWebSocketOnce "ws://a" (oracleRedirect "ws://a"),
        tryWebSocketOnce (httpToWss "https://t") (oracleRedirect (httpToWss "https://t"))] ∧
    runProbe oracleRedirect ["ws://a"] =
      [⟨tryWebSocketOnce (httpToWss "https://t") (oracleRedirect (httpToWss "https://t")),
        some (tryWebSocketOnce "ws://a" (oracleRedirect "ws://a"),
          tryWebSocketOnce (httpToWss "https://t") (oracleRedirect (httpToWss "https://t")))⟩] ∧
    attemptedUrls oracleRedirect "ws://a" = ["ws://a", httpToWss "https://t"] ∧
    (attemptedUrls oracleRedirect "ws://a").length = 2 :=
  claim_c9 oracleRedirect "ws://a" "https://t" (by decide) (by decide) (by decide)
    (by decide)

-- ### Claim C4

theorem timedEvents_of_no_early (timeoutMs : Nat) (evs : List (Nat × WsEvent))
    (h : ∀ te ∈ evs, ¬ te.1 < timeoutMs) :
    timedEvents timeoutMs evs = WsEvent.timedOut :: evs.map Prod.snd := by
  have h1 : evs.filter (fun te => decide (te.1 < timeoutMs)) = [] := by
    rw [List.filter_eq_nil_iff]
    intro a ha
    simpa using h a ha
  have h2 : evs.filter (fun te => !decide (te.1 < timeoutMs)) = evs := by
    rw [List.filter_eq_self]
    intro a ha
    simpa using h a ha
  rw [timedEvents, h1, h2, List.map_nil, List.nil_append]

/-- Claim C4 (amended): the per-attempt safety timeout in `src/index.js` is
8000 ms (8 seconds, not 7). Every attempt that neither connects, rejects nor
errors before that bound resolves with the timeout outcome
(`error: "timeout"`, not connected), the socket is closed on that path, and
the sequential run records the timed-out candidate and proceeds to the
remaining candidates rather than hanging. -/
theorem claim_c4 (oracle : WsOracle) (url : String) (rest : List String)
    (hl : ∀ te ∈ oracle url, ¬ te.1 < perAttemptTimeoutMs) :
    tryWebSocketOnce url (oracle url) =
      { ok := false, url := url, error := some "timeout" } ∧
    (attemptState url (oracle url)).closed = true ∧
    perAttemptTimeoutMs = 8000 ∧
    runProbe oracle (url :: rest) =
      ⟨{ ok := false, url := url, error := some "timeout" }, none⟩ ::
        runProbe oracle rest := by
  have hA : attemptState url (oracle url) =
      ⟨true, some (eventResult url .timedOut), true⟩ := by
    rw [attemptState, timedEvents_of_no_early _ _ hl, runEvents_cons]
  have hT : tryWebSocketOnce url (oracle url) =
      { ok := false, url := url, error := some "timeout" } := by
    rw [tryWebSocketOnce, hA]
    rfl
  have het : tryWithRedirect oracle url =
      ⟨{ ok := false, url := url, error := some "timeout" }, none⟩ := by
    simp [tryWithRedirect, hT, redirectCond]
  refine ⟨hT, by rw [hA], rfl, ?_⟩
  simp [runProbe, het]

/-- A concrete oracle where every attempt's only event arrives at 9000 ms,
after the timeout. -/
def oracleLate : WsOracle := fun _ => [(9000, WsEvent.opened)]

/-- Claim C4, witness: the amended theorem applied to the late oracle. -/
theorem claim_c4_witness :
    tryWebSocketOnce "ws://a" (oracleLate "ws://a") =
      { ok := false, url := "ws://a", error := some "timeout" } ∧
    (attemptState "ws://a" (oracleLate "ws://a")).closed = true ∧
    perAttemptTimeoutMs = 8000 ∧
    runProbe oracleLate ["ws://a", "ws://b"] =
      ⟨{ ok := false, url := "ws://a", error := some "timeout" }, none⟩ ::
        runProbe oracleLate ["ws://b"] :=
  claim_c4 oracleLate "ws://a" ["ws://b"] (by decide)

/-- Claim C4, counterexample to the claim as stated: an attempt whose only
event (a successful open) fires at 7500 ms has neither connected, rejected
nor errored within 7 seconds, yet it does not resolve `TimedOut` — the
source timeout is 8000 ms, so the 7500 ms open wins and the attempt resolves
`Connected`. -/
theorem counterexample_c4 :
    (∀ te ∈ ([(7500, WsEvent.opened)] : List (Nat × WsEvent)), ¬ te.1 < 7000) ∧
    (tryWebSocketOnce "ws://a" [(7500, WsEvent.opened)]).ok = true ∧
    tryWebSocketOnce "ws://a" [(7500, WsEvent.opened)] ≠
      { ok := false, url := "ws://a", error := some "timeout" } := by
  refine ⟨by decide, by decide, by decide⟩

-- ### Claim C7

theorem tryWithRedirectE_no_throw (oracle : WsOracle) (url : String) :
    tryWithRedirectE (fun _ => none) oracle url =
      .ok (tryWithRedirect oracle url) := by
  rw [tryWithRedirectE, tryWithRedirect]
  by_cases hok : (tryWebSocketOnce url (oracle url)).ok = true
  · simp [hok]
  · rw [Bool.not_eq_true] at hok
    by_cases hrc : redirectCond (tryWebSocketOnce url (oracle url)) = true
    · simp [hok, hrc]
    · rw [Bool.not_eq_true] at hrc
      simp [hok, hrc]

theorem runProbeE_no_throw (oracle : WsOracle) (cands : List String) :
    runProbeE (fun _ => none) oracle cands = .ok (runProbe oracle cands) := by
  induction cands with
  | nil => rfl
  | cons url rest ih =>
    rw [runProbeE, tryWithRedirectE_no_throw, runProbe]
    by_cases hok : (tryWithRedirect oracle url).res.ok = true
    · simp [hok]
    · rw [Bool.not_eq_true] at hok
      simp [hok, ih]

/-- Claim C7 (amended): the run fails with the configuration error exactly
when the base endpoint, the credential, or the deployment name is missing
(empty), checked before any candidate is built, and in that case no attempt
is ever initiated. No well-formedness check exists: a malformed but non-empty
endpoint passes the check, the candidates are built from it, and the first
attempt\'s synchronous constructor failure aborts the loop — the handler\'s
catch-all answers a generic internal error, not the configuration error,
after exactly one attempt initiation; so the configuration error is not the
only error-failing condition. -/
theorem claim_c7 (endpoint apiKey deployment apiVersion : String)
    (ctor : CtorOracle) (oracle : WsOracle) :
    (testRealtime endpoint apiKey deployment apiVersion ctor oracle =
        .configError ↔
      (endpoint = "" ∨ apiKey = "" ∨ deployment = "")) ∧
    ((endpoint = "" ∨ apiKey = "" ∨ deployment = "") →
      testRealtimeAttempted endpoint apiKey deployment apiVersion ctor oracle =
        []) ∧
    (∀ msg url rest, ctor url = some msg →
      runProbeE ctor oracle (url :: rest) = .error msg ∧
      runAttemptedE ctor oracle (url :: rest) = [url]) ∧
    (∀ msg, ¬ (endpoint = "" ∨ apiKey = "" ∨ deployment = "") →
      runProbeE ctor oracle (buildCandidates endpoint
        [apiVersion, "2025-08-28"] ["realtime", "realtime/audio"]
        ["deployment", "deploymentId"] deployment) = .error msg →
      testRealtime endpoint apiKey deployment apiVersion ctor oracle =
        .internalError msg) := by
  have hbool : ((endpoint == "" || apiKey == "" || deployment == "") = true) ↔
      (endpoint = "" ∨ apiKey = "" ∨ deployment = "") := by
    simp [or_assoc]
  refine ⟨⟨?_, ?_⟩, ?_, ?_, ?_⟩
  · intro h
    by_cases hc : (endpoint == "" || apiKey == "" || deployment == "") = true
    · exact hbool.mp hc
    · rw [Bool.not_eq_true] at hc
      refine absurd h ?_
      rw [testRealtime, hc]
      simp only [Bool.false_eq_true, if_false]
      cases hr : runProbeE ctor oracle (buildCandidates endpoint
          [apiVersion, "2025-08-28"] ["realtime", "realtime/audio"]
          ["deployment", "deploymentId"] deployment) with
      | error msg => simp
      | ok tr =>
        cases hw : probeWinner tr with
        | none => simp [hw]
        | some w => simp [hw]
  · intro h
    have hc := hbool.mpr h
    simp [testRealtime, hc]
  · intro h
    have hc := hbool.mpr h
    simp [testRealtimeAttempted, hc]
  · intro msg url rest hc
    refine ⟨?_, ?_⟩
    · simp [runProbeE, tryWithRedirectE, hc]
    · simp [runAttemptedE, attemptedUrlsE, tryWithRedirectE, hc]
  · intro msg hne hrun
    have hcb : (endpoint == "" || apiKey == "" || deployment == "") = false := by
      rw [← Bool.not_eq_true]
      intro hx
      exact hne (hbool.mp hx)
    rw [testRealtime, hcb]
    simp only [Bool.false_eq_true, if_false]
    rw [hrun]

/-- Claim C7, witness: with an empty endpoint the handler answers the
configuration error and initiates no attempt. -/
theorem claim_c7_witness :
    (testRealtime "" "k" "gpt-realtime" "2024-10-01-preview" (fun _ => none)
        (fun _ => []) = .configError ↔
      ("" = "" ∨ "k" = "" ∨ "gpt-realtime" = "")) ∧
    (("" = "" ∨ "k" = "" ∨ "gpt-realtime" = "") →
      testRealtimeAttempted "" "k" "gpt-realtime" "2024-10-01-preview"
        (fun _ => none) (fun _ => []) = []) ∧
    (∀ msg url rest, (fun _ => none : CtorOracle) url = some msg →
      runProbeE (fun _ => none) (fun _ => []) (url :: rest) = .error msg ∧
      runAttemptedE (fun _ => none) (fun _ => []) (url :: rest) = [url]) ∧
    (∀ msg, ¬ ("" = "" ∨ "k" = "" ∨ "gpt-realtime" = "") →
      runProbeE (fun _ => none) (fun _ => []) (buildCandidates ""
        ["2024-10-01-preview", "2025-08-28"] ["realtime", "realtime/audio"]
        ["deployment", "deploymentId"] "gpt-realtime") = .error msg →
      testRealtime "" "k" "gpt-realtime" "2024-10-01-preview" (fun _ => none)
        (fun _ => []) = .internalError msg) :=
  claim_c7 "" "k" "gpt-realtime" "2024-10-01-preview" (fun _ => none)
    (fun _ => [])

/-- Modelled library boundary instance: the constructor accepts only URLs
beginning `ws` (covering `ws://` and `wss://`) and throws `Invalid URL` on
anything else, as `new WebSocket` does on a scheme-less address. -/
def ctorStrict : CtorOracle := fun u =>
  if "ws".data.isPrefixOf u.data then none else some "Invalid URL"

/-- Claim C7, counterexample to the claim as stated: the malformed (but
non-empty) endpoint `"not a url"` is not rejected with the configuration
error. All 8 candidates are built from it, the first attempt\'s constructor
throws synchronously, the loop dies after that single attempt initiation, and
the handler answers the generic catch-all error — an error response that is
not the configuration error, refuting both halves of the claim. -/
theorem counterexample_c7 :
    (buildCandidates "not a url" ["2024-10-01-preview", "2025-08-28"]
      ["realtime", "realtime/audio"] ["deployment", "deploymentId"]
      "gpt-realtime").length = 8 ∧
    testRealtime "not a url" "k" "gpt-realtime" "2024-10-01-preview"
      ctorStrict (fun _ => []) = .internalError "Invalid URL" ∧
    testRealtime "not a url" "k" "gpt-realtime" "2024-10-01-preview"
      ctorStrict (fun _ => []) ≠ .configError ∧
    (testRealtimeAttempted "not a url" "k" "gpt-realtime" "2024-10-01-preview"
      ctorStrict (fun _ => [])).length = 1 := by
  refine ⟨by decide, by decide, by decide, by decide⟩
